import Mathlib

/-!
Verification of the JoeAPI MCP server (`src/index.ts` and its richer
variant `src/unnamed/part_000`) against its natural-language specification.

The development shallowly embeds the TypeScript source:

* JSON values are the inductive `Joe.Json`; `JSON.stringify(v, null, 2)`
  is `Joe.stringifyPretty` and `JSON.stringify(v)` is `Joe.stringifyCompact`.
* The `makeRequest` helper is split into the pure request construction
  (`Joe.buildRequest`, covering endpoint normalization, query-parameter
  serialization and body attachment) and the response interpretation
  (`Joe.interpretExchange`).  The HTTP exchange itself is abstracted as an
  oracle `Joe.Upstream` mapping the outbound request to an outcome
  `Joe.Exchange`: either a completed response (status plus JSON body, the
  `fetch` + `response.json()` path) or a thrown JavaScript error (the
  `catch` path: connection failure, DNS failure, JSON parse failure).
  Since the Lean embedding is total, "the function never throws" is
  rendered as: for every outcome of the oracle the function returns a
  well-formed result envelope.
* Each registered tool handler is embedded as a function returning both
  its `Joe.ToolResult` and the list of outbound requests it issued, so
  call-counting properties are statements about that list.
-/

namespace Joe

mutual

/-- JSON values, as produced by `response.json()` and consumed by
`JSON.stringify`.  Numbers are modelled as integers (every number the
program manipulates is integral).  Arrays and objects use mutually
inductive list types so that the stringifiers are plain structural
recursions. -/
inductive Json where
  | null : Json
  | bool (b : Bool) : Json
  | num (n : Int) : Json
  | str (s : String) : Json
  | arr (elems : JsonList) : Json
  | obj (fields : JsonFields) : Json

/-- Sequences of JSON values (array elements). -/
inductive JsonList where
  | nil : JsonList
  | cons (hd : Json) (tl : JsonList) : JsonList

/-- Sequences of key/value pairs (object fields, in insertion order). -/
inductive JsonFields where
  | nil : JsonFields
  | cons (key : String) (val : Json) (tl : JsonFields) : JsonFields

end

/-- Escape one character the way `JSON.stringify` escapes characters
inside string literals. -/
def escapeChar (c : Char) : String :=
  if c = '"' then "\\\""
  else if c = '\\' then "\\\\"
  else if c = '\n' then "\\n"
  else if c = '\t' then "\\t"
  else if c = '\r' then "\\r"
  else String.singleton c

/-- Render a JSON string literal with surrounding quotes. -/
def quoteStr (s : String) : String :=
  "\"" ++ String.join (s.data.map escapeChar) ++ "\""

mutual

/-- Render a JSON value as `JSON.stringify(v, null, 2)` does, where `ind`
is the indentation prefix of the line on which the value starts. -/
def renderVal (ind : String) : Json → String
  | .null => "null"
  | .bool b => if b then "true" else "false"
  | .num n => toString n
  | .str s => quoteStr s
  | .arr .nil => "[]"
  | .arr (.cons x xs) =>
      "[\n" ++ String.intercalate ",\n" (renderElems (ind ++ "  ") (.cons x xs))
        ++ "\n" ++ ind ++ "]"
  | .obj .nil => "\x7b\x7d"
  | .obj (.cons k v fs) =>
      "\x7b\n" ++ String.intercalate ",\n" (renderFields (ind ++ "  ") (.cons k v fs))
        ++ "\n" ++ ind ++ "\x7d"

/-- Render array elements, one string per element, each prefixed by `ind`. -/
def renderElems (ind : String) : JsonList → List String
  | .nil => []
  | .cons x xs => (ind ++ renderVal ind x) :: renderElems ind xs

/-- Render object fields, one string per field, each prefixed by `ind`. -/
def renderFields (ind : String) : JsonFields → List String
  | .nil => []
  | .cons k v fs => (ind ++ quoteStr k ++ ": " ++ renderVal ind v) :: renderFields ind fs

end

/-- The 2-space pretty printer `JSON.stringify(v, null, 2)` used for
response bodies. -/
def stringifyPretty (v : Json) : String := renderVal "" v

mutual

/-- Render a JSON value as the compact `JSON.stringify(v)` used for
request bodies. -/
def renderCompact : Json → String
  | .null => "null"
  | .bool b => if b then "true" else "false"
  | .num n => toString n
  | .str s => quoteStr s
  | .arr xs => "[" ++ String.intercalate "," (renderCompactElems xs) ++ "]"
  | .obj fs => "\x7b" ++ String.intercalate "," (renderCompactFields fs) ++ "\x7d"

/-- Render array elements compactly. -/
def renderCompactElems : JsonList → List String
  | .nil => []
  | .cons x xs => renderCompact x :: renderCompactElems xs

/-- Render object fields compactly. -/
def renderCompactFields : JsonFields → List String
  | .nil => []
  | .cons k v fs => (quoteStr k ++ ":" ++ renderCompact v) :: renderCompactFields fs

end

/-- The compact serializer `JSON.stringify(v)` used for request bodies. -/
def stringifyCompact (v : Json) : String := renderCompact v

/-- JavaScript truthiness of a JSON value (`null`, `false`, `0` and the
empty string are falsy; arrays and objects are always truthy). -/
def jsTruthy : Json → Bool
  | .null => false
  | .bool b => b
  | .num n => n != 0
  | .str s => s != ""
  | .arr _ => true
  | .obj _ => true

/-- Values that can sit in the `params: Record<string, any>` argument of
`makeRequest`: `undefined`, `null`, or a defined scalar. -/
inductive JsVal where
  | undef : JsVal
  | null : JsVal
  | str (s : String) : JsVal
  | num (n : Int) : JsVal
  | bool (b : Bool) : JsVal
deriving DecidableEq, Repr

/-- String coercion `String(value)` applied to defined query values. -/
def jsValToString : JsVal → String
  | .undef => "undefined"
  | .null => "null"
  | .str s => s
  | .num n => toString n
  | .bool b => if b then "true" else "false"

/-- The test `value !== undefined && value !== null` guarding query
serialization in `makeRequest`. -/
def isDefined : JsVal → Bool
  | .undef => false
  | .null => false
  | _ => true

/-- Embeds the JavaScript test `endpoint.startsWith('/')`: with the
one-character argument `'/'` it is exactly "the first character is `/`".
(The primitive `String.startsWith` is byte-position based and does not
reduce in the kernel, so the character-level rendering is used.) -/
def startsWithSlash (s : String) : Bool :=
  match s.data with
  | [] => false
  | c :: _ => c == '/'

/-- Endpoint normalization from `makeRequest`:
`endpoint.startsWith('/') ? endpoint : '/'+endpoint`. -/
def safeEndpoint (endpoint : String) : String :=
  if startsWithSlash endpoint then endpoint else "/" ++ endpoint

/-- Query-parameter serialization from `makeRequest`: iterate over the
entries in order and append `(key, String(value))` for every entry whose
value is neither `undefined` nor `null`; other entries are skipped
entirely. -/
def serializeParams (params : List (String × JsVal)) : List (String × String) :=
  params.filterMap (fun kv => if isDefined kv.2 then some (kv.1, jsValToString kv.2) else none)

/-- The outbound HTTP request assembled by `makeRequest`: method, the URL
before the query string (`{apiBaseUrl}/api/v1{safeEndpoint}`), the
appended query parameters in order, and the optional serialized body. -/
structure HttpRequest where
  method : String
  urlPath : String
  query : List (String × String)
  body : Option String
deriving DecidableEq, Repr

/-- Request construction from `makeRequest` (the part before `fetch`):
URL building, query serialization, and conditional body attachment
(`if (data && (method === 'POST' || method === 'PUT'))`). -/
def buildRequest (apiBaseUrl method endpoint : String) (data : Option Json)
    (params : List (String × JsVal)) : HttpRequest :=
  { method := method
    urlPath := apiBaseUrl ++ "/api/v1" ++ safeEndpoint endpoint
    query := serializeParams params
    body :=
      match data with
      | some d =>
          if jsTruthy d && (method == "POST" || method == "PUT")
          then some (stringifyCompact d) else none
      | none => none }

/-- One content block of a tool result (`{type: 'text', text: ...}`). -/
structure ContentBlock where
  type : String
  text : String
deriving DecidableEq, Repr

/-- The result envelope every tool returns.  The source omits the
`isError` field on success; an absent field is falsy in JavaScript, so it
is modelled as `false`. -/
structure ToolResult where
  content : List ContentBlock
  isError : Bool := false
deriving DecidableEq, Repr

/-- A thrown JavaScript error: its `.message` and its `String(error)`
rendering. -/
structure JsError where
  message : String
  asString : String
deriving DecidableEq, Repr

/-- The fallback `error.message || String(error)` (an empty message is
falsy). -/
def errMessage (e : JsError) : String :=
  if e.message == "" then e.asString else e.message

/-- Outcome of the HTTP exchange for one request: either `fetch` and
`response.json()` completed (carrying the status and parsed body), or
something threw (connection failure, DNS failure, JSON parse failure). -/
inductive Exchange where
  | ok (status : Nat) (body : Json) : Exchange
  | fail (e : JsError) : Exchange

/-- The oracle standing for the network: what outcome the exchange has
for each outbound request. -/
def Upstream : Type := HttpRequest → Exchange

/-- The `response.ok` test: status in the range 200–299. -/
def statusOk (status : Nat) : Bool := 200 ≤ status && status < 300

/-- Response interpretation from `makeRequest`: success envelope, `API
Error` envelope for a non-ok status, `Network Error` envelope for a
thrown error. -/
def interpretExchange : Exchange → ToolResult
  | .ok status body =>
      if statusOk status then
        { content := [⟨"text", stringifyPretty body⟩] }
      else
        { content := [⟨"text", "API Error " ++ toString status ++ ": " ++ stringifyPretty body⟩]
          isError := true }
  | .fail e =>
      { content := [⟨"text", "Network Error: " ++ errMessage e⟩], isError := true }

/-- The `makeRequest` helper: build the request, run the exchange through
the oracle, normalize the outcome.  Returns the result envelope together
with the request that was issued. -/
def makeRequest (apiBaseUrl method endpoint : String) (data : Option Json)
    (params : List (String × JsVal)) (u : Upstream) : ToolResult × HttpRequest :=
  let req := buildRequest apiBaseUrl method endpoint data params
  (interpretExchange (u req), req)

/-- JavaScript `x || d` on an optional number argument: `undefined` and
`0` are falsy and fall through to the default. -/
def jsOrNum (v : Option Int) (d : Int) : Int :=
  match v with
  | none => d
  | some n => if n = 0 then d else n

/-- JavaScript `x || d` on an optional string argument: `undefined` and
the empty string are falsy and fall through to the default. -/
def jsOrStr (v : Option String) (d : String) : String :=
  match v with
  | none => d
  | some s => if s = "" then d else s

/-- JavaScript truthiness of an optional boolean argument: `undefined`
is falsy. -/
def jsOrBool (v : Option Bool) : Bool :=
  match v with
  | none => false
  | some b => b

/-- The `DEFAULT_LIMIT` binding of `createServer`:
`config.DEFAULT_PAGE_LIMIT || 5` (from the richer variant; the plain
variant hard-codes 5, i.e. the `none` case). -/
def resolveDefaultLimit (cfgLimit : Option Int) : Int := jsOrNum cfgLimit 5

/-- Access `r.content[0].text`, as the composite handlers do.  The
default for an empty sequence is arbitrary: the envelope invariant
(claim C9) shows `content` is never empty, so the default is never
used. -/
def textOfFirst (r : ToolResult) : String :=
  match r.content with
  | c :: _ => c.text
  | [] => ""

/-- The `list_clients` handler: `GET /clients` with
`page: page || 1, limit: limit || DEFAULT_LIMIT`. -/
def listClients (baseUrl : String) (defaultLimit : Int) (page limit : Option Int)
    (u : Upstream) : ToolResult × List HttpRequest :=
  let r := makeRequest baseUrl "GET" "/clients" none
    [("page", .num (jsOrNum page 1)), ("limit", .num (jsOrNum limit defaultLimit))] u
  (r.1, [r.2])

/-- The `create_client` handler: `POST /clients` with the argument object
as body. -/
def createClient (baseUrl : String) (args : Json) (u : Upstream) :
    ToolResult × List HttpRequest :=
  let r := makeRequest baseUrl "POST" "/clients" (some args) [] u
  (r.1, [r.2])

/-- The `list_contacts` handler: `GET /contacts` with
`limit: limit || DEFAULT_LIMIT`. -/
def listContacts (baseUrl : String) (defaultLimit : Int) (limit : Option Int)
    (u : Upstream) : ToolResult × List HttpRequest :=
  let r := makeRequest baseUrl "GET" "/contacts" none
    [("limit", .num (jsOrNum limit defaultLimit))] u
  (r.1, [r.2])

/-- The `create_contact` handler: `POST /contacts` with the argument
object as body. -/
def createContact (baseUrl : String) (args : Json) (u : Upstream) :
    ToolResult × List HttpRequest :=
  let r := makeRequest baseUrl "POST" "/contacts" (some args) [] u
  (r.1, [r.2])

/-- The `list_proposals` handler: `GET /proposals` with
`limit: limit || DEFAULT_LIMIT`. -/
def listProposals (baseUrl : String) (defaultLimit : Int) (limit : Option Int)
    (u : Upstream) : ToolResult × List HttpRequest :=
  let r := makeRequest baseUrl "GET" "/proposals" none
    [("limit", .num (jsOrNum limit defaultLimit))] u
  (r.1, [r.2])

/-- The `get_proposal_details` handler: fetch the proposal; if
`includeLines` is truthy and the primary fetch did not error, also fetch
`/proposallines?proposalId=` and merge both texts under the labels
`PROPOSAL:` and `LINES:`; otherwise return the primary result as is. -/
def getProposalDetails (baseUrl proposalId : String) (includeLines : Option Bool)
    (u : Upstream) : ToolResult × List HttpRequest :=
  let p := makeRequest baseUrl "GET" ("/proposals/" ++ proposalId) none [] u
  if jsOrBool includeLines && !p.1.isError then
    let l := makeRequest baseUrl "GET" "/proposallines" none
      [("proposalId", .str proposalId)] u
    ({ content := [⟨"text",
        "PROPOSAL:\n" ++ textOfFirst p.1 ++ "\n\nLINES:\n" ++ textOfFirst l.1⟩] },
     [p.2, l.2])
  else
    (p.1, [p.2])

/-- The `list_estimates` handler: `GET /estimates` with
`limit: limit || DEFAULT_LIMIT`. -/
def listEstimates (baseUrl : String) (defaultLimit : Int) (limit : Option Int)
    (u : Upstream) : ToolResult × List HttpRequest :=
  let r := makeRequest baseUrl "GET" "/estimates" none
    [("limit", .num (jsOrNum limit defaultLimit))] u
  (r.1, [r.2])

/-- The `list_action_items` handler: `GET /action-items` with `projectId`
and `limit: limit || DEFAULT_LIMIT`. -/
def listActionItems (baseUrl : String) (defaultLimit : Int) (projectId : String)
    (limit : Option Int) (u : Upstream) : ToolResult × List HttpRequest :=
  let r := makeRequest baseUrl "GET" "/action-items" none
    [("projectId", .str projectId), ("limit", .num (jsOrNum limit defaultLimit))] u
  (r.1, [r.2])

/-- The `create_action_item` handler: `POST /action-items` with the
argument object as body. -/
def createActionItem (baseUrl : String) (args : Json) (u : Upstream) :
    ToolResult × List HttpRequest :=
  let r := makeRequest baseUrl "POST" "/action-items" (some args) [] u
  (r.1, [r.2])

/-- The `add_action_item_comment` handler: `POST
/action-items/{id}/comments` with body `{Comment: comment}`. -/
def addActionItemComment (baseUrl actionItemId comment : String) (u : Upstream) :
    ToolResult × List HttpRequest :=
  let r := makeRequest baseUrl "POST" ("/action-items/" ++ actionItemId ++ "/comments")
    (some (.obj (.cons "Comment" (.str comment) .nil))) [] u
  (r.1, [r.2])

/-- The `assign_action_item_supervisor` handler: `POST
/action-items/{id}/supervisors` with body `{SupervisorId: supervisorId}`. -/
def assignActionItemSupervisor (baseUrl actionItemId : String) (supervisorId : Int)
    (u : Upstream) : ToolResult × List HttpRequest :=
  let r := makeRequest baseUrl "POST" ("/action-items/" ++ actionItemId ++ "/supervisors")
    (some (.obj (.cons "SupervisorId" (.num supervisorId) .nil))) [] u
  (r.1, [r.2])

/-- The `get_project_details` handler: `GET /project-details/{id}`. -/
def getProjectDetails (baseUrl projectId : String) (u : Upstream) :
    ToolResult × List HttpRequest :=
  let r := makeRequest baseUrl "GET" ("/project-details/" ++ projectId) none [] u
  (r.1, [r.2])

/-- The `list_project_schedules` handler: `GET /project-schedules` with
`limit: limit || DEFAULT_LIMIT`. -/
def listProjectSchedules (baseUrl : String) (defaultLimit : Int) (limit : Option Int)
    (u : Upstream) : ToolResult × List HttpRequest :=
  let r := makeRequest baseUrl "GET" "/project-schedules" none
    [("limit", .num (jsOrNum limit defaultLimit))] u
  (r.1, [r.2])

/-- The `get_financial_summary` handler: `GET /transactions/summary` with
`groupBy: groupBy || 'month'`, `startDate`, `endDate`. -/
def getFinancialSummary (baseUrl : String) (groupBy : Option String)
    (startDate endDate : String) (u : Upstream) : ToolResult × List HttpRequest :=
  let r := makeRequest baseUrl "GET" "/transactions/summary" none
    [("groupBy", .str (jsOrStr groupBy "month")), ("startDate", .str startDate),
     ("endDate", .str endDate)] u
  (r.1, [r.2])

/-- The `get_project_finances` handler: always fetch `/job-balances` and
`/cost-variance` (both filtered by `projectId`) and merge the two texts
under the labels `JOB BALANCES:` and `COST VARIANCE:`, without inspecting
either sub-result's error flag. -/
def getProjectFinances (baseUrl projectId : String) (u : Upstream) :
    ToolResult × List HttpRequest :=
  let b := makeRequest baseUrl "GET" "/job-balances" none
    [("projectId", .str projectId)] u
  let v := makeRequest baseUrl "GET" "/cost-variance" none
    [("projectId", .str projectId)] u
  ({ content := [⟨"text",
      "JOB BALANCES:\n" ++ textOfFirst b.1 ++ "\n\nCOST VARIANCE:\n" ++ textOfFirst v.1⟩] },
   [b.2, v.2])

/-- Test that a string starts with exactly one `/`: the first character
is `/` and the second (when present) is not. -/
def exactlyOneLeadingSlash (s : String) : Bool :=
  match s.data with
  | [] => false
  | c :: rest =>
      c == '/' &&
        (match rest with
         | [] => true
         | c2 :: _ => !(c2 == '/'))

/-- The envelope invariant: the result consists of exactly one text
content block. -/
def isSingleText (r : ToolResult) : Prop :=
  ∃ t, r.content = [ContentBlock.mk "text" t]

end Joe

namespace Joe

/-- Shared helper: whatever the exchange outcome, `makeRequest` returns
an envelope made of exactly one text block together with a boolean error
flag. -/
theorem makeRequest_shape (base method ep : String) (data : Option Json)
    (ps : List (String × JsVal)) (u : Upstream) :
    ∃ t b, (makeRequest base method ep data ps u).1 =
      { content := [ContentBlock.mk "text" t], isError := b } := by
  show ∃ t b, interpretExchange (u (buildRequest base method ep data ps)) = _
  cases u (buildRequest base method ep data ps) with
  | ok status body =>
      by_cases hs : statusOk status = true
      · exact ⟨stringifyPretty body, false, by simp [interpretExchange, hs]⟩
      · exact ⟨"API Error " ++ toString status ++ ": " ++ stringifyPretty body, true,
          by simp [interpretExchange, hs]⟩
  | fail e => exact ⟨"Network Error: " ++ errMessage e, true, rfl⟩

/-- Shared helper: `makeRequest` always returns a single text block. -/
theorem makeRequest_isSingleText (base method ep : String) (data : Option Json)
    (ps : List (String × JsVal)) (u : Upstream) :
    isSingleText (makeRequest base method ep data ps u).1 := by
  obtain ⟨t, b, h⟩ := makeRequest_shape base method ep data ps u
  exact ⟨t, by rw [h]⟩

/-- C1: for every call to `makeRequest` the outbound URL (before the
query string) equals `{baseUrl}/api/v1{path}` where the normalized path
starts with a leading `/`: a path without one has one prepended, a path
already starting with `/` is used as-is (so extra leading slashes
supplied by the caller are preserved). -/
theorem url_construction (base method ep : String) (data : Option Json)
    (ps : List (String × JsVal)) :
    (buildRequest base method ep data ps).urlPath = base ++ "/api/v1" ++ safeEndpoint ep ∧
    startsWithSlash (safeEndpoint ep) = true ∧
    safeEndpoint ep = (if startsWithSlash ep then ep else "/" ++ ep) := by
  refine ⟨rfl, ?_, rfl⟩
  unfold safeEndpoint
  by_cases h : startsWithSlash ep = true
  · simp [h]
  · rw [if_neg h]
    simp [startsWithSlash, String.data_append]

/-- C1 counterexample: the endpoint `//x` is used as-is, so the
normalized path starts with two leading slashes, not exactly one. -/
theorem url_counterexample :
    safeEndpoint "//x" = "//x" ∧
    (buildRequest "https://h" "GET" "//x" none []).urlPath = "https://h/api/v1//x" ∧
    exactlyOneLeadingSlash (safeEndpoint "//x") = false :=
  ⟨rfl, rfl, rfl⟩

/-- C2: when the exchange completes with a status outside the success
range, `makeRequest` returns (does not throw) an envelope whose single
text block is `API Error {status}: ` followed by the 2-space
pretty-printed response body, with `isError` set. -/
theorem api_error_envelope (base method ep : String) (data : Option Json)
    (ps : List (String × JsVal)) (u : Upstream) (status : Nat) (body : Json)
    (hresp : u (buildRequest base method ep data ps) = Exchange.ok status body)
    (hstatus : statusOk status = false) :
    (makeRequest base method ep data ps u).1 =
      { content := [ContentBlock.mk "text"
          ("API Error " ++ toString status ++ ": " ++ stringifyPretty body)]
        isError := true } := by
  show interpretExchange (u (buildRequest base method ep data ps)) = _
  rw [hresp]
  simp [interpretExchange, hstatus]

/-- C2 witness: a simulated HTTP 404 with body `{"error":"not found"}`. -/
theorem api_error_envelope_witness :
    statusOk 404 = false ∧
    (makeRequest "https://h" "GET" "/x" none []
        (fun _ => Exchange.ok 404 (Json.obj (.cons "error" (.str "not found") .nil)))).1 =
      { content := [ContentBlock.mk "text"
          ("API Error 404: " ++
            stringifyPretty (Json.obj (.cons "error" (.str "not found") .nil)))]
        isError := true } :=
  ⟨rfl, api_error_envelope "https://h" "GET" "/x" none []
    (fun _ => Exchange.ok 404 (Json.obj (.cons "error" (.str "not found") .nil)))
    404 (Json.obj (.cons "error" (.str "not found") .nil)) rfl rfl⟩

/-- C3: an exception thrown during the exchange is caught and returned
as a `Network Error: {message}` envelope with `isError` set, and for
every exchange outcome whatsoever `makeRequest` resolves to a normal
single-text envelope — nothing escapes as an unhandled fault. -/
theorem network_error_envelope (base method ep : String) (data : Option Json)
    (ps : List (String × JsVal)) (u : Upstream) (e : JsError)
    (hfail : u (buildRequest base method ep data ps) = Exchange.fail e) :
    (makeRequest base method ep data ps u).1 =
      { content := [ContentBlock.mk "text" ("Network Error: " ++ errMessage e)]
        isError := true } ∧
    ∀ u2 : Upstream, ∃ t b, (makeRequest base method ep data ps u2).1 =
      { content := [ContentBlock.mk "text" t], isError := b } := by
  constructor
  · show interpretExchange (u (buildRequest base method ep data ps)) = _
    rw [hfail]
    rfl
  · intro u2
    exact makeRequest_shape base method ep data ps u2

/-- C3 witness: a simulated connection failure with message `boom`. -/
theorem network_error_envelope_witness :
    ((fun _ => Exchange.fail (JsError.mk "boom" "Error: boom")) : Upstream)
        (buildRequest "https://h" "GET" "x" none []) =
      Exchange.fail (JsError.mk "boom" "Error: boom") ∧
    (makeRequest "https://h" "GET" "x" none []
        (fun _ => Exchange.fail (JsError.mk "boom" "Error: boom"))).1 =
      { content := [ContentBlock.mk "text" "Network Error: boom"], isError := true } :=
  ⟨rfl, (network_error_envelope "https://h" "GET" "x" none []
    (fun _ => Exchange.fail (JsError.mk "boom" "Error: boom"))
    (JsError.mk "boom" "Error: boom") rfl).1⟩

/-- C4: `get_proposal_details` with a falsy `includeLines` issues exactly
one outbound call and returns the primary result unchanged; with
`includeLines` truthy and a non-error primary fetch it issues exactly the
two calls in order and returns one text block holding the labeled
sections `PROPOSAL:` (primary text) then `LINES:` (second call's text). -/
theorem proposal_details_gated (base pid : String) (il : Option Bool) (u : Upstream) :
    (jsOrBool il = false →
      (getProposalDetails base pid il u).1 =
        (makeRequest base "GET" ("/proposals/" ++ pid) none [] u).1 ∧
      (getProposalDetails base pid il u).2 =
        [(makeRequest base "GET" ("/proposals/" ++ pid) none [] u).2]) ∧
    (jsOrBool il = true →
      (makeRequest base "GET" ("/proposals/" ++ pid) none [] u).1.isError = false →
      (getProposalDetails base pid il u).2 =
        [(makeRequest base "GET" ("/proposals/" ++ pid) none [] u).2,
         (makeRequest base "GET" "/proposallines" none [("proposalId", JsVal.str pid)] u).2] ∧
      (getProposalDetails base pid il u).1.content =
        [ContentBlock.mk "text"
          ("PROPOSAL:\n" ++
            textOfFirst (makeRequest base "GET" ("/proposals/" ++ pid) none [] u).1 ++
            "\n\nLINES:\n" ++
            textOfFirst (makeRequest base "GET" "/proposallines" none
              [("proposalId", JsVal.str pid)] u).1)]) := by
  constructor
  · intro h
    unfold getProposalDetails
    simp [h]
  · intro h hp
    unfold getProposalDetails
    simp [h, hp]

/-- C4 witness: with a universally successful upstream, the ungated call
issues one request and the gated call issues two. -/
theorem proposal_details_gated_witness :
    (jsOrBool none = false ∧
      (getProposalDetails "https://h" "p1" none (fun _ => Exchange.ok 200 Json.null)).2 =
        [(makeRequest "https://h" "GET" "/proposals/p1" none []
            (fun _ => Exchange.ok 200 Json.null)).2]) ∧
    (jsOrBool (some true) = true ∧
      (makeRequest "https://h" "GET" "/proposals/p1" none []
          (fun _ => Exchange.ok 200 Json.null)).1.isError = false ∧
      (getProposalDetails "https://h" "p1" (some true) (fun _ => Exchange.ok 200 Json.null)).2 =
        [(makeRequest "https://h" "GET" "/proposals/p1" none []
            (fun _ => Exchange.ok 200 Json.null)).2,
         (makeRequest "https://h" "GET" "/proposallines" none
            [("proposalId", JsVal.str "p1")] (fun _ => Exchange.ok 200 Json.null)).2]) :=
  ⟨⟨rfl, ((proposal_details_gated "https://h" "p1" none
      (fun _ => Exchange.ok 200 Json.null)).1 rfl).2⟩,
   ⟨rfl, rfl, ((proposal_details_gated "https://h" "p1" (some true)
      (fun _ => Exchange.ok 200 Json.null)).2 rfl rfl).1⟩⟩

/-- C5: `get_project_finances` always issues exactly the two calls
`/job-balances` and `/cost-variance` (each carrying the `projectId`
query parameter) for every upstream behaviour, and always returns a
single text block holding `JOB BALANCES:` then `COST VARIANCE:` with the
two sub-results' texts embedded and no error flag on the combined
result. -/
theorem project_finances_dual (base pid : String) (u : Upstream) :
    (getProjectFinances base pid u).2 =
      [buildRequest base "GET" "/job-balances" none [("projectId", JsVal.str pid)],
       buildRequest base "GET" "/cost-variance" none [("projectId", JsVal.str pid)]] ∧
    (buildRequest base "GET" "/job-balances" none [("projectId", JsVal.str pid)]).query =
      [("projectId", pid)] ∧
    (buildRequest base "GET" "/cost-variance" none [("projectId", JsVal.str pid)]).query =
      [("projectId", pid)] ∧
    (getProjectFinances base pid u).1.isError = false ∧
    (getProjectFinances base pid u).1.content =
      [ContentBlock.mk "text"
        ("JOB BALANCES:\n" ++
          textOfFirst (makeRequest base "GET" "/job-balances" none
            [("projectId", JsVal.str pid)] u).1 ++
          "\n\nCOST VARIANCE:\n" ++
          textOfFirst (makeRequest base "GET" "/cost-variance" none
            [("projectId", JsVal.str pid)] u).1)] :=
  ⟨rfl, rfl, rfl, rfl, rfl⟩

/-- C10: in `get_proposal_details` with `includeLines` true and a
non-error primary fetch, a failed lines fetch has its error text embedded
in the `LINES:` section while the combined result carries no error flag —
the second call's failure is not propagated. -/
theorem proposal_lines_error_swallowed (base pid : String) (u : Upstream)
    (hp : (makeRequest base "GET" ("/proposals/" ++ pid) none [] u).1.isError = false)
    (_hl : (makeRequest base "GET" "/proposallines" none
        [("proposalId", JsVal.str pid)] u).1.isError = true) :
    (getProposalDetails base pid (some true) u).1.isError = false ∧
    (getProposalDetails base pid (some true) u).1.content =
      [ContentBlock.mk "text"
        ("PROPOSAL:\n" ++
          textOfFirst (makeRequest base "GET" ("/proposals/" ++ pid) none [] u).1 ++
          "\n\nLINES:\n" ++
          textOfFirst (makeRequest base "GET" "/proposallines" none
            [("proposalId", JsVal.str pid)] u).1)] := by
  unfold getProposalDetails
  simp [jsOrBool, hp]

/-- C10 witness: an upstream that succeeds on the parameterless primary
fetch and fails on the lines fetch. -/
theorem proposal_lines_error_swallowed_witness :
    (makeRequest "https://h" "GET" "/proposals/p1" none []
        (fun r => if r.query.isEmpty then Exchange.ok 200 Json.null
          else Exchange.fail (JsError.mk "boom" "Error: boom"))).1.isError = false ∧
    (makeRequest "https://h" "GET" "/proposallines" none [("proposalId", JsVal.str "p1")]
        (fun r => if r.query.isEmpty then Exchange.ok 200 Json.null
          else Exchange.fail (JsError.mk "boom" "Error: boom"))).1.isError = true ∧
    (getProposalDetails "https://h" "p1" (some true)
        (fun r => if r.query.isEmpty then Exchange.ok 200 Json.null
          else Exchange.fail (JsError.mk "boom" "Error: boom"))).1.isError = false :=
  ⟨rfl, rfl,
    (proposal_lines_error_swallowed "https://h" "p1"
      (fun r => if r.query.isEmpty then Exchange.ok 200 Json.null
        else Exchange.fail (JsError.mk "boom" "Error: boom")) rfl rfl).1⟩

/-- Shared helper: unfolding one step of query serialization. -/
theorem serializeParams_cons (hd : String × JsVal) (tl : List (String × JsVal)) :
    serializeParams (hd :: tl) =
      if isDefined hd.2 = true then (hd.1, jsValToString hd.2) :: serializeParams tl
      else serializeParams tl := by
  by_cases h : isDefined hd.2 = true <;>
    simp [serializeParams, List.filterMap_cons, h]

/-- Shared helper: a key absent from the parameter mapping never appears
in the serialized query. -/
theorem serialize_filter_of_not_mem {params : List (String × JsVal)} {k : String}
    (h : k ∉ params.map Prod.fst) :
    (serializeParams params).filter (fun kv => kv.1 == k) = [] := by
  induction params with
  | nil => rfl
  | cons hd tl ih =>
      simp only [List.map_cons, List.mem_cons, not_or] at h
      rw [serializeParams_cons]
      by_cases hd2 : isDefined hd.2 = true
      · rw [if_pos hd2]
        have : (hd.1 == k) = false := by
          simp only [beq_eq_false_iff_ne, ne_eq]
          exact fun he => h.1 he.symm
        simp [List.filter_cons, this, ih h.2]
      · rw [if_neg hd2]
        exact ih h.2

/-- Shared helper: under unique keys, the serialized query's entries for
key `k` are exactly the serialization of `k`'s value — one string-coerced
entry when the value is defined, nothing when it is `undefined`/`null`. -/
theorem serialize_filter_of_mem {params : List (String × JsVal)} {k : String} {v : JsVal}
    (hnd : (params.map Prod.fst).Nodup) (hmem : (k, v) ∈ params) :
    (serializeParams params).filter (fun kv => kv.1 == k) =
      (if isDefined v = true then [(k, jsValToString v)] else []) := by
  induction params with
  | nil => cases hmem
  | cons hd tl ih =>
      simp only [List.map_cons, List.nodup_cons] at hnd
      rw [serializeParams_cons]
      rcases List.mem_cons.mp hmem with heq | htl
      · subst heq
        by_cases hv : isDefined v = true
        · rw [if_pos hv, if_pos hv]
          simp [List.filter_cons, serialize_filter_of_not_mem hnd.1]
        · rw [if_neg hv, if_neg hv]
          exact serialize_filter_of_not_mem hnd.1
      · have hk : k ∈ tl.map Prod.fst := List.mem_map.mpr ⟨(k, v), htl, rfl⟩
        have hne : (hd.1 == k) = false := by
          simp only [beq_eq_false_iff_ne, ne_eq]
          exact fun he => hnd.1 (he ▸ hk)
        by_cases hd2 : isDefined hd.2 = true
        · rw [if_pos hd2]
          simp only [List.filter_cons, hne, Bool.false_eq_true, if_false]
          exact ih hnd.2 htl
        · rw [if_neg hd2]
          exact ih hnd.2 htl

/-- C6: in every query-parameter mapping with unique keys passed to
`makeRequest`, a key whose value is `undefined` or `null` is entirely
absent from the resulting query, and a key with a defined scalar value
appears exactly once, coerced via `String(value)`. -/
theorem query_serialization (base method ep : String) (data : Option Json)
    (params : List (String × JsVal)) (k : String) (v : JsVal)
    (hnd : (params.map Prod.fst).Nodup) (hmem : (k, v) ∈ params) :
    (buildRequest base method ep data params).query = serializeParams params ∧
    (isDefined v = false →
      (serializeParams params).filter (fun kv => kv.1 == k) = []) ∧
    (isDefined v = true →
      (serializeParams params).filter (fun kv => kv.1 == k) = [(k, jsValToString v)]) := by
  refine ⟨rfl, ?_, ?_⟩
  · intro h
    have := serialize_filter_of_mem hnd hmem
    rw [this, if_neg (by simp [h])]
  · intro h
    have := serialize_filter_of_mem hnd hmem
    rw [this, if_pos h]

/-- C6 witness: in the mapping `page=1, q=undefined, r=null`, `page`
appears exactly once as the string `1` while `q` and `r` are absent. -/
theorem query_serialization_witness :
    ([("page", JsVal.num 1), ("q", JsVal.undef), ("r", JsVal.null)].map
        (Prod.fst (α := String) (β := JsVal))).Nodup ∧
    (("page", JsVal.num 1) ∈
      [("page", JsVal.num 1), ("q", JsVal.undef), ("r", JsVal.null)]) ∧
    (serializeParams [("page", JsVal.num 1), ("q", JsVal.undef), ("r", JsVal.null)]).filter
      (fun kv => kv.1 == "page") = [("page", jsValToString (JsVal.num 1))] ∧
    (serializeParams [("page", JsVal.num 1), ("q", JsVal.undef), ("r", JsVal.null)]).filter
      (fun kv => kv.1 == "q") = [] ∧
    (serializeParams [("page", JsVal.num 1), ("q", JsVal.undef), ("r", JsVal.null)]).filter
      (fun kv => kv.1 == "r") = [] :=
  ⟨by decide, by decide,
   (query_serialization "https://h" "GET" "/clients" none
      [("page", JsVal.num 1), ("q", JsVal.undef), ("r", JsVal.null)]
      "page" (JsVal.num 1) (by decide) (by decide)).2.2 rfl,
   (query_serialization "https://h" "GET" "/clients" none
      [("page", JsVal.num 1), ("q", JsVal.undef), ("r", JsVal.null)]
      "q" JsVal.undef (by decide) (by decide)).2.1 rfl,
   (query_serialization "https://h" "GET" "/clients" none
      [("page", JsVal.num 1), ("q", JsVal.undef), ("r", JsVal.null)]
      "r" JsVal.null (by decide) (by decide)).2.1 rfl⟩

/-- C7: `GET` and `DELETE` requests never carry a body even when a body
argument is passed; `POST` and `PUT` requests carry the JSON
serialization of the supplied body when it is JavaScript-truthy (every
object is), and no body when the supplied value is falsy. -/
theorem body_attachment (base ep : String) (data : Option Json)
    (ps : List (String × JsVal)) (d : Json) :
    (buildRequest base "GET" ep data ps).body = none ∧
    (buildRequest base "DELETE" ep data ps).body = none ∧
    (jsTruthy d = true →
      (buildRequest base "POST" ep (some d) ps).body = some (stringifyCompact d) ∧
      (buildRequest base "PUT" ep (some d) ps).body = some (stringifyCompact d)) ∧
    (jsTruthy d = false →
      (buildRequest base "POST" ep (some d) ps).body = none ∧
      (buildRequest base "PUT" ep (some d) ps).body = none) := by
  refine ⟨?_, ?_, ?_, ?_⟩
  · cases data with
    | none => rfl
    | some d2 => simp [buildRequest]
  · cases data with
    | none => rfl
    | some d2 => simp [buildRequest]
  · intro h
    exact ⟨by simp [buildRequest, h], by simp [buildRequest, h]⟩
  · intro h
    exact ⟨by simp [buildRequest, h], by simp [buildRequest, h]⟩

/-- C7 counterexample: a `POST` with the supplied body value `false` — a
body value was supplied, yet no body is attached, because the source
gates attachment on JavaScript truthiness (`if (data && ...)`), not on
presence. -/
theorem body_attachment_counterexample :
    (buildRequest "https://h" "POST" "/clients" (some (Json.bool false)) []).body = none ∧
    jsTruthy (Json.bool false) = false :=
  ⟨rfl, rfl⟩

/-- C7 witness: a `POST` with an object body attaches its compact JSON
serialization. -/
theorem body_attachment_witness :
    jsTruthy (Json.obj (.cons "Name" (.str "A") .nil)) = true ∧
    (buildRequest "https://h" "POST" "/clients"
        (some (Json.obj (.cons "Name" (.str "A") .nil))) []).body =
      some (stringifyCompact (Json.obj (.cons "Name" (.str "A") .nil))) :=
  ⟨rfl, ((body_attachment "https://h" "/clients" none []
      (Json.obj (.cons "Name" (.str "A") .nil))).2.2.1 rfl).1⟩

/-- C8: `list_clients` with no `page` and no `limit` argument issues a
`GET` to `/clients` whose query is `page=1` and `limit` equal to the
configured default page limit, which resolves to `5` when no default is
configured. -/
theorem list_clients_defaults (base : String) (cfgLimit : Option Int) (u : Upstream) :
    (listClients base (resolveDefaultLimit cfgLimit) none none u).2 =
      [{ method := "GET"
         urlPath := base ++ "/api/v1/clients"
         query := [("page", "1"), ("limit", toString (resolveDefaultLimit cfgLimit))]
         body := none }] ∧
    resolveDefaultLimit none = 5 := by
  refine ⟨?_, rfl⟩
  have hurl : base ++ "/api/v1" ++ safeEndpoint "/clients" = base ++ "/api/v1/clients" := by
    rw [String.append_assoc]
    rfl
  show [buildRequest base "GET" "/clients" none
    [("page", JsVal.num (jsOrNum none 1)),
     ("limit", JsVal.num (jsOrNum none (resolveDefaultLimit cfgLimit)))]] = _
  rw [buildRequest, hurl]
  rfl

/-- Shared helper: the `get_proposal_details` handler always returns a
single text block. -/
theorem getProposalDetails_isSingleText (base pid : String) (il : Option Bool)
    (u : Upstream) : isSingleText (getProposalDetails base pid il u).1 := by
  unfold getProposalDetails
  by_cases h : (jsOrBool il &&
      !(makeRequest base "GET" ("/proposals/" ++ pid) none [] u).1.isError) = true
  · simp only [h, if_true]
    exact ⟨_, rfl⟩
  · simp only [h, if_false]
    exact makeRequest_isSingleText base "GET" ("/proposals/" ++ pid) none [] u

/-- C9: every result envelope this server produces — from `makeRequest`
and from each of the fifteen registered tool handlers — consists of
exactly one text content block (so the composite handlers' access to
`content[0].text` is always well-defined), and on the success path the
block holds the pretty-printed response body with no error flag. -/
theorem envelope_invariant (base : String) (dlim : Int) (u : Upstream) :
    (∀ method ep data ps, isSingleText (makeRequest base method ep data ps u).1) ∧
    (∀ method ep data ps status body,
      u (buildRequest base method ep data ps) = Exchange.ok status body →
      statusOk status = true →
      (makeRequest base method ep data ps u).1 =
        { content := [ContentBlock.mk "text" (stringifyPretty body)], isError := false }) ∧
    (∀ page limit, isSingleText (listClients base dlim page limit u).1) ∧
    (∀ args, isSingleText (createClient base args u).1) ∧
    (∀ limit, isSingleText (listContacts base dlim limit u).1) ∧
    (∀ args, isSingleText (createContact base args u).1) ∧
    (∀ limit, isSingleText (listProposals base dlim limit u).1) ∧
    (∀ pid il, isSingleText (getProposalDetails base pid il u).1) ∧
    (∀ limit, isSingleText (listEstimates base dlim limit u).1) ∧
    (∀ pid limit, isSingleText (listActionItems base dlim pid limit u).1) ∧
    (∀ args, isSingleText (createActionItem base args u).1) ∧
    (∀ aid c, isSingleText (addActionItemComment base aid c u).1) ∧
    (∀ aid sid, isSingleText (assignActionItemSupervisor base aid sid u).1) ∧
    (∀ pid, isSingleText (getProjectDetails base pid u).1) ∧
    (∀ limit, isSingleText (listProjectSchedules base dlim limit u).1) ∧
    (∀ gb sd ed, isSingleText (getFinancialSummary base gb sd ed u).1) ∧
    (∀ pid, isSingleText (getProjectFinances base pid u).1) := by
  refine ⟨?_, ?_, ?_, ?_, ?_, ?_, ?_, ?_, ?_, ?_, ?_, ?_, ?_, ?_, ?_, ?_, ?_⟩
  · intro method ep data ps
    exact makeRequest_isSingleText base method ep data ps u
  · intro method ep data ps status body hresp hstatus
    show interpretExchange (u (buildRequest base method ep data ps)) = _
    rw [hresp]
    simp [interpretExchange, hstatus]
  · intro page limit
    exact makeRequest_isSingleText base "GET" "/clients" none _ u
  · intro args
    exact makeRequest_isSingleText base "POST" "/clients" (some args) [] u
  · intro limit
    exact makeRequest_isSingleText base "GET" "/contacts" none _ u
  · intro args
    exact makeRequest_isSingleText base "POST" "/contacts" (some args) [] u
  · intro limit
    exact makeRequest_isSingleText base "GET" "/proposals" none _ u
  · intro pid il
    exact getProposalDetails_isSingleText base pid il u
  · intro limit
    exact makeRequest_isSingleText base "GET" "/estimates" none _ u
  · intro pid limit
    exact makeRequest_isSingleText base "GET" "/action-items" none _ u
  · intro args
    exact makeRequest_isSingleText base "POST" "/action-items" (some args) [] u
  · intro aid c
    exact makeRequest_isSingleText base "POST" ("/action-items/" ++ aid ++ "/comments") _ [] u
  · intro aid sid
    exact makeRequest_isSingleText base "POST" ("/action-items/" ++ aid ++ "/supervisors") _ [] u
  · intro pid
    exact makeRequest_isSingleText base "GET" ("/project-details/" ++ pid) none [] u
  · intro limit
    exact makeRequest_isSingleText base "GET" "/project-schedules" none _ u
  · intro gb sd ed
    exact makeRequest_isSingleText base "GET" "/transactions/summary" none _ u
  · intro pid
    exact ⟨_, rfl⟩

/-- C9 witness: a successful exchange at status 200 yields the
pretty-printed body as the single text block with no error flag. -/
theorem envelope_invariant_witness :
    ((fun _ => Exchange.ok 200 Json.null : Upstream)
        (buildRequest "https://h" "GET" "/x" none []) = Exchange.ok 200 Json.null) ∧
    statusOk 200 = true ∧
    (makeRequest "https://h" "GET" "/x" none [] (fun _ => Exchange.ok 200 Json.null)).1 =
      { content := [ContentBlock.mk "text" (stringifyPretty Json.null)]
        isError := false } :=
  ⟨rfl, rfl,
    (envelope_invariant "https://h" 5 (fun _ => Exchange.ok 200 Json.null)).2.1
      "GET" "/x" none [] 200 Json.null rfl rfl⟩

end Joe
